import Mathlib

/-!
Verification of the `mcp_server/app.py` HTTP adapter: a FastAPI wrapper that
exposes a pre-built MCP server instance over SSE.  The adapter's behaviour is
embedded shallowly: route handlers become pure Lean functions, the startup hook
becomes a trace-producing function over an explicit process environment, and
the `__main__` entrypoint becomes a function from the environment to either a
Python exception or the listener invocation.
-/

/-- A process environment: a partial map from variable names to values
(`os.environ.get`). -/
abbrev Env := String → Option String

/-- A Python exception, reduced to its type name (`type(e).__name__`) and its
message (`str(e)`). -/
structure PyExc where
  typeName : String
  message : String
  deriving Repr, DecidableEq

/-- Python truthiness of `os.environ.get(k)`: `None` and the empty string are
falsy, every non-empty string is truthy. -/
def truthy (v : Option String) : Bool :=
  match v with
  | some s => !(s == "")
  | none => false

/-- `os.environ.get(k, default)`. -/
def getOr (env : Env) (k default : String) : String :=
  (env k).getD default

/-- The string logged for a secret variable in `app.py` lines 118 and 123:
`'SET' if os.environ.get(k) else 'NOT SET'`. -/
def presenceStr (v : Option String) : String :=
  if truthy v then "SET" else "NOT SET"

/-- LLM settings of the server configuration (`config.llm` in `app.py`).
The temperature is a numeric value; it is kept in its decimal-string form
here because nothing in the adapter computes with it, it is only logged. -/
structure LLMConfig where
  model : String
  small_model : String
  api_key : String
  temperature : String
  deriving Repr, DecidableEq

/-- Neo4j connection settings of the server configuration (`config.neo4j`). -/
structure Neo4jConfig where
  uri : String
  user : String
  password : String
  deriving Repr, DecidableEq

/-- The server configuration built from environment variables. -/
structure GraphitiConfig where
  llm : LLMConfig
  neo4j : Neo4jConfig
  semaphore_limit : String
  deriving Repr, DecidableEq

/-- The names of the required environment variables. -/
def requiredVars : List String :=
  ["OPENAI_API_KEY", "NEO4J_URI", "NEO4J_USER", "NEO4J_PASSWORD"]

/-- Modelled from the spec: `GraphitiConfig.from_env` lives in the collaborator
module `graphiti_mcp_server`, which is part of this repository but not under
the provided sources (only its caller `app.py` is).  Per the spec (section 4.1):
the required variables are OPENAI_API_KEY, NEO4J_URI, NEO4J_USER and
NEO4J_PASSWORD, and absence of any required variable is a fatal condition that
raises, naming the missing variable; the optional variables carry defaults
(model name, small-model name, concurrency limit 10, temperature 0.0). -/
def GraphitiConfig.from_env (env : Env) : Except PyExc GraphitiConfig :=
  match env "OPENAI_API_KEY", env "NEO4J_URI", env "NEO4J_USER",
        env "NEO4J_PASSWORD" with
  | some key, some uri, some user, some pwd =>
      Except.ok
        { llm := { model := getOr env "MODEL_NAME" "gpt-4-turbo"
                 , small_model := getOr env "SMALL_MODEL_NAME" "gpt-4o-mini"
                 , api_key := key
                 , temperature := getOr env "LLM_TEMPERATURE" "0.0" }
        , neo4j := { uri := uri, user := user, password := pwd }
        , semaphore_limit := getOr env "SEMAPHORE_LIMIT" "10" }
  | none, _, _, _ =>
      Except.error ⟨"ValueError", "OPENAI_API_KEY environment variable is required"⟩
  | _, none, _, _ =>
      Except.error ⟨"ValueError", "NEO4J_URI environment variable is required"⟩
  | _, _, none, _ =>
      Except.error ⟨"ValueError", "NEO4J_USER environment variable is required"⟩
  | _, _, _, none =>
      Except.error ⟨"ValueError", "NEO4J_PASSWORD environment variable is required"⟩

/-- Outcome of the black-box external initializer
`graphiti_mcp_server.initialize_graphiti()`: it either returns or raises. -/
inductive InitResult where
  | ok : InitResult
  | raises : PyExc → InitResult
  deriving Repr, DecidableEq

/-- Observable events of one execution of the startup hook, in order:
emitted log lines, the call to `GraphitiConfig.from_env`, the assignment to
`graphiti_mcp_server.config`, the call to `initialize_graphiti`, reaching the
ready state (the hook returning normally), and an exception propagating out
of the hook. -/
inductive Event where
  | log : String → Event
  | callFromEnv : Event
  | assignConfig : GraphitiConfig → Event
  | callInitialize : Event
  | ready : Event
  | raise : PyExc → Event
  deriving Repr, DecidableEq

/-- The environment-check log emitted at `app.py` lines 114 and 117-124. -/
def envCheckLog (env : Env) : List String :=
  [ "Initializing Graphiti MCP Server with SSE transport for ChatGPT"
  , "Environment variable check:"
  , "  OPENAI_API_KEY: " ++ presenceStr (env "OPENAI_API_KEY")
  , "  MODEL_NAME: " ++ getOr env "MODEL_NAME" "NOT SET"
  , "  SMALL_MODEL_NAME: " ++ getOr env "SMALL_MODEL_NAME" "NOT SET"
  , "  NEO4J_URI: " ++ getOr env "NEO4J_URI" "NOT SET"
  , "  NEO4J_USER: " ++ getOr env "NEO4J_USER" "NOT SET"
  , "  NEO4J_PASSWORD: " ++ presenceStr (env "NEO4J_PASSWORD")
  , "  SEMAPHORE_LIMIT: " ++ getOr env "SEMAPHORE_LIMIT" "DEFAULT (10)" ]

/-- The configuration log emitted at `app.py` lines 130 and 133-137 once the
configuration has loaded.  `bool(api_key)` is Python truthiness of the string. -/
def configLoadedLog (cfg : GraphitiConfig) : List String :=
  [ "Configuration loaded successfully"
  , "Config - LLM Model: " ++ cfg.llm.model
  , "Config - Small Model: " ++ cfg.llm.small_model
  , "Config - Temperature: " ++ cfg.llm.temperature
  , "Config - Neo4j URI: " ++ cfg.neo4j.uri
  , "Config - API Key Present: " ++ (if cfg.llm.api_key = "" then "False" else "True") ]

/-- The error log emitted at `app.py` lines 143-145 in the `except` block. -/
def failLog (e : PyExc) : List String :=
  [ "Failed to initialize Graphiti: " ++ e.message
  , "Error type: " ++ e.typeName
  , "Error details: " ++ e.message ]

/-- The ready log line at `app.py` line 141. -/
def readyLine : String := "Graphiti MCP Server ready - SSE endpoint available at /sse"

instance {ε α : Type} [DecidableEq ε] [DecidableEq α] : DecidableEq (Except ε α) :=
  fun a b =>
    match a, b with
    | Except.ok x, Except.ok y =>
        if h : x = y then Decidable.isTrue (by rw [h])
        else Decidable.isFalse (by intro hc; cases hc; exact h rfl)
    | Except.error x, Except.error y =>
        if h : x = y then Decidable.isTrue (by rw [h])
        else Decidable.isFalse (by intro hc; cases hc; exact h rfl)
    | Except.ok _, Except.error _ => Decidable.isFalse (by intro hc; cases hc)
    | Except.error _, Except.ok _ => Decidable.isFalse (by intro hc; cases hc)

/-- Result of one execution of the startup hook: the full ordered event trace,
the hook's result (an error means the exception propagated to the caller), and
the value of the module attribute `graphiti_mcp_server.config` after the hook. -/
structure StartupOutcome where
  trace : List Event
  result : Except PyExc Unit
  finalConfig : Option GraphitiConfig
  deriving Repr, DecidableEq

/-- Shallow embedding of `startup_event` (`app.py` lines 111-146).  `env` is
the process environment, `init` the behaviour of the black-box external
initializer, and `config0` the pre-hook value of
`graphiti_mcp_server.config`. -/
def startup_event (env : Env) (init : InitResult)
    (config0 : Option GraphitiConfig) : StartupOutcome :=
  let pre := (envCheckLog env).map Event.log
  let loading := [Event.log "Loading configuration from environment variables...",
                  Event.callFromEnv]
  match GraphitiConfig.from_env env with
  | Except.error e =>
      { trace := pre ++ loading ++ (failLog e).map Event.log ++ [Event.raise e]
      , result := Except.error e
      , finalConfig := config0 }
  | Except.ok cfg =>
      match init with
      | InitResult.raises e =>
          { trace := pre ++ loading ++ [Event.assignConfig cfg]
                       ++ (configLoadedLog cfg).map Event.log
                       ++ [Event.callInitialize]
                       ++ (failLog e).map Event.log ++ [Event.raise e]
          , result := Except.error e
          , finalConfig := some cfg }
      | InitResult.ok =>
          { trace := pre ++ loading ++ [Event.assignConfig cfg]
                       ++ (configLoadedLog cfg).map Event.log
                       ++ [Event.callInitialize, Event.log readyLine, Event.ready]
          , result := Except.ok ()
          , finalConfig := some cfg }

/-- The log lines of a trace, in order. -/
def logLines (tr : List Event) : List String :=
  tr.filterMap fun ev =>
    match ev with
    | Event.log s => some s
    | _ => none

/-- Whether an event is the call to `GraphitiConfig.from_env`. -/
def isCallFromEnv : Event → Bool
  | Event.callFromEnv => true
  | _ => false

/-- Whether an event is the call to `initialize_graphiti`. -/
def isCallInitialize : Event → Bool
  | Event.callInitialize => true
  | _ => false

/-! ## HTTP surface -/

/-- A JSON value; numbers are kept in their decimal-literal form (the manifest
holds the integer 10 and the float 0.0, neither of which is computed with). -/
inductive Json where
  | str : String → Json
  | bool : Bool → Json
  | num : String → Json
  | arr : List Json → Json
  | obj : List (String × Json) → Json

/-- Field lookup in a JSON object. -/
def Json.getField : Json → String → Option Json
  | Json.obj fields, key => fields.lookup key
  | _, _ => none

/-- An HTTP response: a status code and a JSON body.  FastAPI returns status
200 for a handler that returns a plain value. -/
structure Response where
  status : Nat
  body : Json

/-- `root` (`app.py` lines 35-38).  The parameter records whether external
initialization has completed; the handler does not consult it. -/
def root (contextInitialized : Bool) : Response :=
  let _ := contextInitialized
  { status := 200
  , body := Json.obj [ ("ok", Json.bool true)
                     , ("service", Json.str "graphiti-mcp")
                     , ("transport", Json.str "sse") ] }

/-- `health` (`app.py` lines 40-43). -/
def health (contextInitialized : Bool) : Response :=
  let _ := contextInitialized
  { status := 200
  , body := Json.obj [ ("status", Json.str "healthy")
                     , ("service", Json.str "graphiti-mcp") ] }

/-- `mcp_manifest` (`app.py` lines 45-109): the static discovery document.
The parameter again records external-server state, unused by the handler. -/
def mcp_manifest (contextInitialized : Bool) : Response :=
  let _ := contextInitialized
  { status := 200
  , body := Json.obj
      [ ("id", Json.str "graphiti-memory")
      , ("name", Json.str "Graphiti Memory System")
      , ("description", Json.str "A temporally-aware knowledge graph for AI agents with episodic memory capabilities")
      , ("attributes", Json.obj
          [ ("version", Json.str "1.0.0")
          , ("transport", Json.str "sse")
          , ("endpoint", Json.str "/sse")
          , ("capabilities", Json.arr
              [ Json.str "add_memory"
              , Json.str "search_memory_nodes"
              , Json.str "search_memory_facts"
              , Json.str "delete_entity_edge"
              , Json.str "delete_episode"
              , Json.str "get_entity_edge"
              , Json.str "get_episodes"
              , Json.str "clear_graph" ]) ])
      , ("environmentVariablesJsonSchema", Json.obj
          [ ("type", Json.str "object")
          , ("required", Json.arr
              [ Json.str "OPENAI_API_KEY"
              , Json.str "NEO4J_URI"
              , Json.str "NEO4J_USER"
              , Json.str "NEO4J_PASSWORD" ])
          , ("properties", Json.obj
              [ ("OPENAI_API_KEY", Json.obj
                  [ ("type", Json.str "string")
                  , ("description", Json.str "OpenAI API key for LLM operations") ])
              , ("NEO4J_URI", Json.obj
                  [ ("type", Json.str "string")
                  , ("description", Json.str "Neo4j database connection URI") ])
              , ("NEO4J_USER", Json.obj
                  [ ("type", Json.str "string")
                  , ("description", Json.str "Neo4j database username") ])
              , ("NEO4J_PASSWORD", Json.obj
                  [ ("type", Json.str "string")
                  , ("description", Json.str "Neo4j database password") ])
              , ("MODEL_NAME", Json.obj
                  [ ("type", Json.str "string")
                  , ("description", Json.str "LLM model name (e.g., gpt-4-turbo)")
                  , ("default", Json.str "gpt-4-turbo") ])
              , ("SMALL_MODEL_NAME", Json.obj
                  [ ("type", Json.str "string")
                  , ("description", Json.str "Small LLM model for simple tasks")
                  , ("default", Json.str "gpt-4o-mini") ])
              , ("SEMAPHORE_LIMIT", Json.obj
                  [ ("type", Json.str "integer")
                  , ("description", Json.str "Concurrent operations limit")
                  , ("default", Json.num "10") ])
              , ("LLM_TEMPERATURE", Json.obj
                  [ ("type", Json.str "number")
                  , ("description", Json.str "LLM temperature setting")
                  , ("default", Json.num "0.0") ]) ]) ]) ] }

/-- `handle_sse` (`app.py` lines 30-33): the adapter returns the external
handler's response for the incoming request, with no processing of its own.
`sse_handler` is the black-box `graphiti_mcp_server.mcp.sse_handler`. -/
def handle_sse {Req Resp : Type} (sse_handler : Req → Resp) (request : Req) : Resp :=
  sse_handler request

/-- HTTP methods registered by the adapter. -/
inductive Method where
  | GET : Method
  | POST : Method
  deriving Repr, DecidableEq, BEq

/-- The adapter's handlers, one per registered route. -/
inductive Handler where
  | sse : Handler
  | rootH : Handler
  | healthz : Handler
  | manifest : Handler
  deriving Repr, DecidableEq, BEq

/-- The adapter's route registrations (`@app.api_route` and `@app.get`
decorators in `app.py`). -/
def routeTable : List ((Method × String) × Handler) :=
  [ ((Method.GET, "/sse"), Handler.sse)
  , ((Method.POST, "/sse"), Handler.sse)
  , ((Method.GET, "/"), Handler.rootH)
  , ((Method.GET, "/healthz"), Handler.healthz)
  , ((Method.GET, "/mcp/manifest.json"), Handler.manifest) ]

/-! ## Process entrypoint -/

/-- One digit step of CPython `int(str)` parsing, after the first digit:
single underscores are allowed between digits only. -/
def parseUnsignedAux : Nat → List Char → Option Nat
  | acc, [] => some acc
  | acc, '_' :: c :: cs =>
      if c.isDigit then parseUnsignedAux (acc * 10 + (c.toNat - 48)) cs else none
  | acc, c :: cs =>
      if c.isDigit then parseUnsignedAux (acc * 10 + (c.toNat - 48)) cs else none

/-- Parse a non-empty run of ASCII decimal digits with optional single
underscores between digits, as CPython `int()` accepts after the sign. -/
def parseUnsigned : List Char → Option Nat
  | [] => none
  | c :: cs => if c.isDigit then parseUnsignedAux (c.toNat - 48) cs else none

/-- Split off an optional leading sign. -/
def pySign : List Char → Bool × List Char
  | '+' :: r => (true, r)
  | '-' :: r => (false, r)
  | r => (true, r)

/-- The `ValueError` CPython `int()` raises on an unparsable string. -/
def invalidIntLit (s : String) : PyExc :=
  ⟨"ValueError", "invalid literal for int() with base 10: " ++ s⟩

/-- Shallow embedding of CPython `int(s)` for base 10 (`app.py` line 150):
surrounding whitespace is stripped, then an optional sign and ASCII decimal
digits with single underscores between digits; anything else raises
`ValueError`.  (CPython additionally accepts non-ASCII decimal digits, which
this model rejects; no claim depends on those.) -/
def pyInt (s : String) : Except PyExc Int :=
  let cs := ((s.data.dropWhile Char.isWhitespace).reverse.dropWhile
               Char.isWhitespace).reverse
  let sr := pySign cs
  match parseUnsigned sr.2 with
  | some n => Except.ok (if sr.1 then (n : Int) else -(n : Int))
  | none => Except.error (invalidIntLit s)

/-- Observable events of the `__main__` block. -/
inductive MainEvent where
  | log : String → MainEvent
  | listen : String → Int → MainEvent
  deriving Repr, DecidableEq

/-- Shallow embedding of the `__main__` block (`app.py` lines 148-154):
`PORT` is read and converted with `int` first; if that raises, nothing else
runs.  Otherwise `HOST` is read, the start is logged and `uvicorn.run` is
invoked on exactly that host and port. -/
def main_entry (env : Env) : Except PyExc (List MainEvent) :=
  match pyInt (getOr env "PORT" "8080") with
  | Except.error e => Except.error e
  | Except.ok port =>
      let host := getOr env "HOST" "0.0.0.0"
      Except.ok
        [ MainEvent.log ("Starting Graphiti MCP Server on " ++ host ++ ":"
            ++ toString port)
        , MainEvent.listen host port ]

/-! ## Concrete environments used by witnesses and counterexamples -/

/-- An environment with all four required variables set. -/
def envFull : Env := fun k =>
  if k = "OPENAI_API_KEY" then some "sk-test" else
  if k = "NEO4J_URI" then some "bolt://db:7687" else
  if k = "NEO4J_USER" then some "neo4j" else
  if k = "NEO4J_PASSWORD" then some "pw" else none

/-- `envFull` with the API key present but empty. -/
def envEmptyKey : Env := fun k =>
  if k = "OPENAI_API_KEY" then some "" else envFull k

/-- `envFull` with a different non-empty API key. -/
def envOtherKey : Env := fun k =>
  if k = "OPENAI_API_KEY" then some "sk-other" else envFull k

/-- The empty environment. -/
def envNone : Env := fun _ => none

/-- An environment whose `PORT` is not a valid integer literal. -/
def envBadPort : Env := fun k =>
  if k = "PORT" then some "abc" else none

/-- The exception raised when `OPENAI_API_KEY` is absent. -/
def missingKeyExc : PyExc :=
  ⟨"ValueError", "OPENAI_API_KEY environment variable is required"⟩

/-- An environment with its secret variables removed: two environments that
agree after erasure differ at most in the secrets. -/
def eraseSecrets (e : Env) : Env := fun k =>
  if k = "OPENAI_API_KEY" then none
  else if k = "NEO4J_PASSWORD" then none
  else e k

/-! ## Helper lemmas -/

/-- Every `pyInt` failure is a `ValueError` on the original string. -/
theorem pyInt_error_valueError {s : String} {e : PyExc}
    (h : pyInt s = Except.error e) : e = invalidIntLit s := by
  simp only [pyInt] at h
  split at h
  · exact absurd h (by simp)
  · exact (Except.error.inj h).symm

/-- `logLines` distributes over append. -/
theorem logLines_append (a b : List Event) :
    logLines (a ++ b) = logLines a ++ logLines b :=
  List.filterMap_append a b _

/-- `logLines` of a pure log segment recovers the lines. -/
theorem logLines_map_log (xs : List String) :
    logLines (xs.map Event.log) = xs := by
  induction xs with
  | nil => rfl
  | cons x xs ih =>
      simp only [List.map_cons, logLines, List.filterMap_cons] at *
      rw [ih]

/-- A pure log segment counts zero under a predicate refuting log events. -/
theorem countP_map_log_zero (q : Event → Bool)
    (hq : ∀ s, q (Event.log s) = false) (xs : List String) :
    (xs.map Event.log).countP q = 0 := by
  induction xs with
  | nil => rfl
  | cons x xs ih => simp [List.countP_cons, hq, ih]

/-- If a required variable is absent, `GraphitiConfig.from_env` raises. -/
theorem from_env_error_of_missing (env : Env) (v : String)
    (hv : v ∈ requiredVars) (hmiss : env v = none) :
    ∃ e, GraphitiConfig.from_env env = Except.error e := by
  simp only [requiredVars, List.mem_cons, List.not_mem_nil, or_false] at hv
  unfold GraphitiConfig.from_env
  rcases hk : env "OPENAI_API_KEY" with _ | k <;>
    rcases hu : env "NEO4J_URI" with _ | u <;>
      rcases hw : env "NEO4J_USER" with _ | w <;>
        rcases hp : env "NEO4J_PASSWORD" with _ | p <;>
          first
            | exact ⟨_, rfl⟩
            | (rcases hv with rfl | rfl | rfl | rfl <;> simp_all)

/-- Every line of the environment-check log appears in the startup log,
whatever the configuration load and the initializer do. -/
theorem envCheck_sub_logLines (env : Env) (init : InitResult)
    (c0 : Option GraphitiConfig) {s : String} (hs : s ∈ envCheckLog env) :
    s ∈ logLines (startup_event env init c0).trace := by
  unfold startup_event
  cases hfe : GraphitiConfig.from_env env with
  | error e =>
      simpa [logLines_append, logLines_map_log, logLines] using Or.inl hs
  | ok cfg =>
      cases init <;>
        simpa [logLines_append, logLines_map_log, logLines] using Or.inl hs

theorem logLines_cons_log (s : String) (tr : List Event) :
    logLines (Event.log s :: tr) = s :: logLines tr := rfl

theorem logLines_cons_callFromEnv (tr : List Event) :
    logLines (Event.callFromEnv :: tr) = logLines tr := rfl

theorem logLines_cons_assignConfig (c : GraphitiConfig) (tr : List Event) :
    logLines (Event.assignConfig c :: tr) = logLines tr := rfl

theorem logLines_cons_callInitialize (tr : List Event) :
    logLines (Event.callInitialize :: tr) = logLines tr := rfl

theorem logLines_cons_ready (tr : List Event) :
    logLines (Event.ready :: tr) = logLines tr := rfl

theorem logLines_cons_raise (e : PyExc) (tr : List Event) :
    logLines (Event.raise e :: tr) = logLines tr := rfl

theorem logLines_nil : logLines [] = [] := rfl

theorem logLines_startup (env : Env) (init : InitResult)
    (c0 : Option GraphitiConfig) :
    logLines (startup_event env init c0).trace =
      envCheckLog env
        ++ "Loading configuration from environment variables..."
        :: (match GraphitiConfig.from_env env with
            | Except.error e => failLog e
            | Except.ok cfg =>
                match init with
                | InitResult.raises e => configLoadedLog cfg ++ failLog e
                | InitResult.ok => configLoadedLog cfg ++ [readyLine]) := by
  unfold startup_event
  cases GraphitiConfig.from_env env with
  | error e =>
      simp only [logLines_append, logLines_map_log, logLines_cons_log,
        logLines_cons_callFromEnv, logLines_cons_assignConfig,
        logLines_cons_callInitialize, logLines_cons_ready,
        logLines_cons_raise, logLines_nil, List.append_assoc,
        List.singleton_append, List.cons_append, List.nil_append,
        List.append_nil]
  | ok cfg =>
      cases init <;>
        simp only [logLines_append, logLines_map_log, logLines_cons_log,
          logLines_cons_callFromEnv, logLines_cons_assignConfig,
          logLines_cons_callInitialize, logLines_cons_ready,
          logLines_cons_raise, logLines_nil, List.append_assoc,
          List.singleton_append, List.cons_append, List.nil_append,
          List.append_nil]

/-! ## Claims -/

/-- C1: for every environment in which one of the required variables
OPENAI_API_KEY, NEO4J_URI, NEO4J_USER, NEO4J_PASSWORD is absent, the
startup hook fails (its result is an exception), never calls the external
initializer, and its log names the missing variable as NOT SET. -/
theorem startup_missing_required_var_fails (env : Env) (init : InitResult)
    (c0 : Option GraphitiConfig) (v : String)
    (hv : v ∈ requiredVars) (hmiss : env v = none) :
    (∃ e, (startup_event env init c0).result = Except.error e) ∧
    Event.callInitialize ∉ (startup_event env init c0).trace ∧
    ("  " ++ v ++ ": NOT SET") ∈ logLines (startup_event env init c0).trace := by
  obtain ⟨e, he⟩ := from_env_error_of_missing env v hv hmiss
  refine ⟨⟨e, ?_⟩, ?_, ?_⟩
  · unfold startup_event
    rw [he]
  · unfold startup_event
    rw [he]
    simp [List.mem_append, List.mem_map, failLog]
  · refine envCheck_sub_logLines env init c0 ?_
    have hv' := hv
    simp only [requiredVars, List.mem_cons, List.not_mem_nil, or_false] at hv'
    rcases hv' with rfl | rfl | rfl | rfl
    · have h1 : "  OPENAI_API_KEY: " ++ presenceStr (env "OPENAI_API_KEY")
          = "  " ++ "OPENAI_API_KEY" ++ ": NOT SET" := by rw [hmiss]; decide
      rw [← h1]
      simp [envCheckLog]
    · have h1 : "  NEO4J_URI: " ++ getOr env "NEO4J_URI" "NOT SET"
          = "  " ++ "NEO4J_URI" ++ ": NOT SET" := by
        simp only [getOr, hmiss, Option.getD_none]; decide
      rw [← h1]
      simp [envCheckLog]
    · have h1 : "  NEO4J_USER: " ++ getOr env "NEO4J_USER" "NOT SET"
          = "  " ++ "NEO4J_USER" ++ ": NOT SET" := by
        simp only [getOr, hmiss, Option.getD_none]; decide
      rw [← h1]
      simp [envCheckLog]
    · have h1 : "  NEO4J_PASSWORD: " ++ presenceStr (env "NEO4J_PASSWORD")
          = "  " ++ "NEO4J_PASSWORD" ++ ": NOT SET" := by rw [hmiss]; decide
      rw [← h1]
      simp [envCheckLog]

/-- Witness for C1 at the empty environment, missing OPENAI_API_KEY. -/
theorem startup_missing_required_var_fails_witness :
    "OPENAI_API_KEY" ∈ requiredVars ∧ envNone "OPENAI_API_KEY" = none ∧
    ((∃ e, (startup_event envNone InitResult.ok none).result = Except.error e) ∧
     Event.callInitialize ∉ (startup_event envNone InitResult.ok none).trace ∧
     ("  " ++ "OPENAI_API_KEY" ++ ": NOT SET")
       ∈ logLines (startup_event envNone InitResult.ok none).trace) :=
  ⟨by decide, rfl,
   startup_missing_required_var_fails envNone InitResult.ok none
     "OPENAI_API_KEY" (by decide) rfl⟩

/-- C2: in every execution of the startup hook the configuration is loaded
exactly once, and whenever the external initializer is called, the
configuration obtained from the environment has been assigned to
`graphiti_mcp_server.config` strictly before that call. -/
theorem startup_config_assigned_before_initialize (env : Env)
    (init : InitResult) (c0 : Option GraphitiConfig) :
    (startup_event env init c0).trace.countP isCallFromEnv = 1 ∧
    (Event.callInitialize ∈ (startup_event env init c0).trace →
      ∃ cfg l₁ l₂,
        GraphitiConfig.from_env env = Except.ok cfg ∧
        (startup_event env init c0).trace = l₁ ++ Event.assignConfig cfg :: l₂ ∧
        Event.callInitialize ∉ l₁ ∧ Event.callInitialize ∈ l₂) := by
  have hzero : ∀ xs : List String, (xs.map Event.log).countP isCallFromEnv = 0 :=
    countP_map_log_zero _ (fun _ => rfl)
  unfold startup_event
  cases hfe : GraphitiConfig.from_env env with
  | error e =>
      constructor
      · simp [List.countP_append, hzero, List.countP_cons, failLog, isCallFromEnv]
      · intro hmem
        simp [List.mem_append, List.mem_map, failLog] at hmem
  | ok cfg =>
      cases init with
      | raises e =>
          constructor
          · simp [List.countP_append, hzero, List.countP_cons, failLog,
              configLoadedLog, isCallFromEnv]
          · intro _
            refine ⟨cfg,
              (envCheckLog env).map Event.log
                ++ [Event.log "Loading configuration from environment variables...",
                    Event.callFromEnv],
              (configLoadedLog cfg).map Event.log
                ++ [Event.callInitialize]
                ++ (failLog e).map Event.log ++ [Event.raise e],
              rfl, by simp, ?_, by simp⟩
            simp [List.mem_append, List.mem_map]
      | ok =>
          constructor
          · simp [List.countP_append, hzero, List.countP_cons, failLog,
              configLoadedLog, isCallFromEnv]
          · intro _
            refine ⟨cfg,
              (envCheckLog env).map Event.log
                ++ [Event.log "Loading configuration from environment variables...",
                    Event.callFromEnv],
              (configLoadedLog cfg).map Event.log
                ++ [Event.callInitialize, Event.log readyLine, Event.ready],
              rfl, by simp, ?_, by simp⟩
            simp [List.mem_append, List.mem_map]

/-- Witness for C2 at a fully populated environment. -/
theorem startup_config_assigned_before_initialize_witness :
    (startup_event envFull InitResult.ok none).trace.countP isCallFromEnv = 1 ∧
    (Event.callInitialize ∈ (startup_event envFull InitResult.ok none).trace →
      ∃ cfg l₁ l₂,
        GraphitiConfig.from_env envFull = Except.ok cfg ∧
        (startup_event envFull InitResult.ok none).trace
          = l₁ ++ Event.assignConfig cfg :: l₂ ∧
        Event.callInitialize ∉ l₁ ∧ Event.callInitialize ∈ l₂) :=
  startup_config_assigned_before_initialize envFull InitResult.ok none

/-- C3: any exception raised by the configuration load or by the external
initializer is logged with its category and message and re-raised out of the
hook; the ready state is never reached and neither call is retried. -/
theorem startup_exception_logged_and_reraised (env : Env) (init : InitResult)
    (c0 : Option GraphitiConfig) (e : PyExc)
    (h : GraphitiConfig.from_env env = Except.error e ∨
         (∃ cfg, GraphitiConfig.from_env env = Except.ok cfg ∧
            init = InitResult.raises e)) :
    (startup_event env init c0).result = Except.error e ∧
    Event.log ("Failed to initialize Graphiti: " ++ e.message)
      ∈ (startup_event env init c0).trace ∧
    Event.log ("Error type: " ++ e.typeName)
      ∈ (startup_event env init c0).trace ∧
    Event.log ("Error details: " ++ e.message)
      ∈ (startup_event env init c0).trace ∧
    Event.ready ∉ (startup_event env init c0).trace ∧
    (startup_event env init c0).trace.countP isCallFromEnv ≤ 1 ∧
    (startup_event env init c0).trace.countP isCallInitialize ≤ 1 := by
  have hzeroF : ∀ xs : List String, (xs.map Event.log).countP isCallFromEnv = 0 :=
    countP_map_log_zero _ (fun _ => rfl)
  have hzeroI : ∀ xs : List String,
      (xs.map Event.log).countP isCallInitialize = 0 :=
    countP_map_log_zero _ (fun _ => rfl)
  unfold startup_event
  rcases h with he | ⟨cfg, hok, hinit⟩
  · rw [he]
    refine ⟨rfl, ?_, ?_, ?_, ?_, ?_, ?_⟩
    · simp [List.mem_append, failLog]
    · simp [List.mem_append, failLog]
    · simp [List.mem_append, failLog]
    · simp [List.mem_append, List.mem_map, failLog]
    · simp [List.countP_append, hzeroF, List.countP_cons, failLog, isCallFromEnv]
    · simp [List.countP_append, hzeroI, List.countP_cons, failLog,
        isCallInitialize]
  · rw [hok, hinit]
    refine ⟨rfl, ?_, ?_, ?_, ?_, ?_, ?_⟩
    · simp [List.mem_append, failLog]
    · simp [List.mem_append, failLog]
    · simp [List.mem_append, failLog]
    · simp [List.mem_append, List.mem_map, failLog, configLoadedLog]
    · simp [List.countP_append, hzeroF, List.countP_cons, failLog,
        configLoadedLog, isCallFromEnv]
    · simp [List.countP_append, hzeroI, List.countP_cons, failLog,
        configLoadedLog, isCallInitialize]

/-- Witness for C3: a missing API key propagates out of the hook. -/
theorem startup_exception_logged_and_reraised_witness :
    (GraphitiConfig.from_env envNone = Except.error missingKeyExc ∨
     (∃ cfg, GraphitiConfig.from_env envNone = Except.ok cfg ∧
        InitResult.ok = InitResult.raises missingKeyExc)) ∧
    ((startup_event envNone InitResult.ok none).result
        = Except.error missingKeyExc ∧
     Event.log ("Failed to initialize Graphiti: " ++ missingKeyExc.message)
       ∈ (startup_event envNone InitResult.ok none).trace ∧
     Event.log ("Error type: " ++ missingKeyExc.typeName)
       ∈ (startup_event envNone InitResult.ok none).trace ∧
     Event.log ("Error details: " ++ missingKeyExc.message)
       ∈ (startup_event envNone InitResult.ok none).trace ∧
     Event.ready ∉ (startup_event envNone InitResult.ok none).trace ∧
     (startup_event envNone InitResult.ok none).trace.countP isCallFromEnv ≤ 1 ∧
     (startup_event envNone InitResult.ok none).trace.countP isCallInitialize
       ≤ 1) :=
  ⟨Or.inl rfl,
   startup_exception_logged_and_reraised envNone InitResult.ok none
     missingKeyExc (Or.inl rfl)⟩

/-- C5: whenever the process is running, `GET /` returns status 200 with
exactly the payload `ok: true, service: graphiti-mcp, transport: sse` and
`GET /healthz` returns status 200 with exactly the payload
`status: healthy, service: graphiti-mcp`, independent of whether external
initialization has completed. -/
theorem root_healthz_fixed_payloads (contextInitialized : Bool) :
    root contextInitialized =
      { status := 200
      , body := Json.obj [ ("ok", Json.bool true)
                         , ("service", Json.str "graphiti-mcp")
                         , ("transport", Json.str "sse") ] } ∧
    health contextInitialized =
      { status := 200
      , body := Json.obj [ ("status", Json.str "healthy")
                         , ("service", Json.str "graphiti-mcp") ] } :=
  ⟨rfl, rfl⟩

/-- C6: `GET /mcp/manifest.json` returns a document independent of
external-server state whose `environmentVariablesJsonSchema.required` list is
exactly `OPENAI_API_KEY, NEO4J_URI, NEO4J_USER, NEO4J_PASSWORD`. -/
theorem manifest_required_env_vars (contextInitialized : Bool) :
    ((mcp_manifest contextInitialized).body.getField
        "environmentVariablesJsonSchema").bind
      (fun j => j.getField "required")
      = some (Json.arr [ Json.str "OPENAI_API_KEY", Json.str "NEO4J_URI"
                       , Json.str "NEO4J_USER", Json.str "NEO4J_PASSWORD" ]) ∧
    mcp_manifest contextInitialized = mcp_manifest true :=
  ⟨rfl, rfl⟩

/-- C7: the route table maps both `GET /sse` and `POST /sse` to the SSE
handler, and that handler returns the external handler's response for the
incoming request unmodified. -/
theorem sse_route_transparent_forwarding :
    List.lookup (Method.GET, "/sse") routeTable = some Handler.sse ∧
    List.lookup (Method.POST, "/sse") routeTable = some Handler.sse ∧
    ∀ (Req Resp : Type) (h : Req → Resp) (r : Req), handle_sse h r = h r :=
  ⟨rfl, rfl, fun _ _ _ _ => rfl⟩

/-- C8: the entrypoint reads `HOST` defaulting to `0.0.0.0` and `PORT`
defaulting to `8080`, and starts the listener on exactly that host and port. -/
theorem entrypoint_reads_host_port (env : Env) (p : Int)
    (hp : pyInt (getOr env "PORT" "8080") = Except.ok p) :
    main_entry env = Except.ok
      [ MainEvent.log ("Starting Graphiti MCP Server on "
          ++ getOr env "HOST" "0.0.0.0" ++ ":" ++ toString p)
      , MainEvent.listen (getOr env "HOST" "0.0.0.0") p ] ∧
    (env "PORT" = none → p = 8080) ∧
    (env "HOST" = none → getOr env "HOST" "0.0.0.0" = "0.0.0.0") := by
  refine ⟨?_, ?_, ?_⟩
  · unfold main_entry
    rw [hp]
  · intro h
    simp only [getOr, h, Option.getD_none] at hp
    have h8 : pyInt "8080" = Except.ok 8080 := rfl
    rw [h8] at hp
    exact (Except.ok.inj hp).symm
  · intro h
    simp [getOr, h]

/-- Witness for C8 at the empty environment: the defaults apply. -/
theorem entrypoint_reads_host_port_witness :
    pyInt (getOr envNone "PORT" "8080") = Except.ok 8080 ∧
    (main_entry envNone = Except.ok
      [ MainEvent.log ("Starting Graphiti MCP Server on "
          ++ getOr envNone "HOST" "0.0.0.0" ++ ":" ++ toString (8080 : Int))
      , MainEvent.listen (getOr envNone "HOST" "0.0.0.0") 8080 ] ∧
     (envNone "PORT" = none → (8080 : Int) = 8080) ∧
     (envNone "HOST" = none → getOr envNone "HOST" "0.0.0.0" = "0.0.0.0")) :=
  ⟨rfl, entrypoint_reads_host_port envNone 8080 rfl⟩

/-- C9: a `PORT` value that is not a valid decimal integer makes the
entrypoint raise `ValueError` before the listener ever starts; the default
string `8080` parses to the integer 8080. -/
theorem entrypoint_invalid_port_raises (env : Env) (s : String) (e : PyExc)
    (hs : env "PORT" = some s) (he : pyInt s = Except.error e) :
    main_entry env = Except.error e ∧ e.typeName = "ValueError" ∧
    pyInt "8080" = Except.ok 8080 := by
  have hg : getOr env "PORT" "8080" = s := by simp [getOr, hs]
  refine ⟨?_, ?_, rfl⟩
  · unfold main_entry
    rw [hg, he]
  · rw [pyInt_error_valueError he]
    rfl

/-- Witness for C9 at `PORT = abc`. -/
theorem entrypoint_invalid_port_raises_witness :
    envBadPort "PORT" = some "abc" ∧
    pyInt "abc" = Except.error (invalidIntLit "abc") ∧
    (main_entry envBadPort = Except.error (invalidIntLit "abc") ∧
     (invalidIntLit "abc").typeName = "ValueError" ∧
     pyInt "8080" = Except.ok 8080) :=
  ⟨rfl, rfl, entrypoint_invalid_port_raises envBadPort "abc" (invalidIntLit "abc") rfl rfl⟩

/-- C10: if `GraphitiConfig.from_env` raises inside the startup hook, the
module attribute `graphiti_mcp_server.config` keeps its pre-hook value, and
the exception propagates. -/
theorem startup_config_unchanged_on_from_env_error (env : Env)
    (init : InitResult) (c0 : Option GraphitiConfig) (e : PyExc)
    (h : GraphitiConfig.from_env env = Except.error e) :
    (startup_event env init c0).finalConfig = c0 ∧
    (startup_event env init c0).result = Except.error e := by
  unfold startup_event
  rw [h]
  exact ⟨rfl, rfl⟩

/-- Witness for C10 at the empty environment. -/
theorem startup_config_unchanged_on_from_env_error_witness :
    GraphitiConfig.from_env envNone = Except.error missingKeyExc ∧
    ((startup_event envNone InitResult.ok none).finalConfig = none ∧
     (startup_event envNone InitResult.ok none).result
       = Except.error missingKeyExc) :=
  ⟨rfl, startup_config_unchanged_on_from_env_error envNone InitResult.ok none
    missingKeyExc rfl⟩

/-- C4 (amended): for every pair of environments that agree outside the
secret variables OPENAI_API_KEY and NEO4J_PASSWORD and agree on both the
presence and the truthiness (non-emptiness) of each secret, the startup hook
produces identical log output; the non-secret values NEO4J_URI, NEO4J_USER,
MODEL_NAME and SMALL_MODEL_NAME are logged verbatim.  (The agreement on
truthiness is forced by the counterexample: the code logs the Python
truthiness of each secret, not its presence.) -/
theorem startup_log_independent_of_secret_values (e1 e2 : Env)
    (init : InitResult) (c0 : Option GraphitiConfig)
    (hother : eraseSecrets e1 = eraseSecrets e2)
    (hk1 : (e1 "OPENAI_API_KEY").isSome = (e2 "OPENAI_API_KEY").isSome)
    (hk2 : truthy (e1 "OPENAI_API_KEY") = truthy (e2 "OPENAI_API_KEY"))
    (hp1 : (e1 "NEO4J_PASSWORD").isSome = (e2 "NEO4J_PASSWORD").isSome)
    (hp2 : truthy (e1 "NEO4J_PASSWORD") = truthy (e2 "NEO4J_PASSWORD")) :
    logLines (startup_event e1 init c0).trace
      = logLines (startup_event e2 init c0).trace ∧
    ("  NEO4J_URI: " ++ getOr e1 "NEO4J_URI" "NOT SET")
      ∈ logLines (startup_event e1 init c0).trace ∧
    ("  NEO4J_USER: " ++ getOr e1 "NEO4J_USER" "NOT SET")
      ∈ logLines (startup_event e1 init c0).trace ∧
    ("  MODEL_NAME: " ++ getOr e1 "MODEL_NAME" "NOT SET")
      ∈ logLines (startup_event e1 init c0).trace ∧
    ("  SMALL_MODEL_NAME: " ++ getOr e1 "SMALL_MODEL_NAME" "NOT SET")
      ∈ logLines (startup_event e1 init c0).trace := by
  have hne : ∀ k, k ≠ "OPENAI_API_KEY" → k ≠ "NEO4J_PASSWORD" → e1 k = e2 k := by
    intro k h1 h2
    have h := congrFun hother k
    simpa [eraseSecrets, h1, h2] using h
  refine ⟨?_, ?_, ?_, ?_, ?_⟩
  case refine_2 => exact envCheck_sub_logLines e1 init c0 (by simp [envCheckLog])
  case refine_3 => exact envCheck_sub_logLines e1 init c0 (by simp [envCheckLog])
  case refine_4 => exact envCheck_sub_logLines e1 init c0 (by simp [envCheckLog])
  case refine_5 => exact envCheck_sub_logLines e1 init c0 (by simp [envCheckLog])
  have hcheck : envCheckLog e1 = envCheckLog e2 := by
    unfold envCheckLog getOr presenceStr
    rw [hk2, hp2, hne "MODEL_NAME" (by decide) (by decide),
      hne "SMALL_MODEL_NAME" (by decide) (by decide),
      hne "NEO4J_URI" (by decide) (by decide),
      hne "NEO4J_USER" (by decide) (by decide),
      hne "SEMAPHORE_LIMIT" (by decide) (by decide)]
  rw [logLines_startup, logLines_startup, hcheck]
  refine congrArg _ (congrArg _ ?_)
  rcases hA1 : e1 "OPENAI_API_KEY" with _ | k1
  · have hA2 : e2 "OPENAI_API_KEY" = none := by
      cases hA2 : e2 "OPENAI_API_KEY" with
      | none => rfl
      | some _ => rw [hA1, hA2] at hk1; simp at hk1
    have f1 : GraphitiConfig.from_env e1 = Except.error
        ⟨"ValueError", "OPENAI_API_KEY environment variable is required"⟩ := by
      unfold GraphitiConfig.from_env
      rw [hA1]
      cases e1 "NEO4J_URI" <;> cases e1 "NEO4J_USER" <;>
        cases e1 "NEO4J_PASSWORD" <;> rfl
    have f2 : GraphitiConfig.from_env e2 = Except.error
        ⟨"ValueError", "OPENAI_API_KEY environment variable is required"⟩ := by
      unfold GraphitiConfig.from_env
      rw [hA2]
      cases e2 "NEO4J_URI" <;> cases e2 "NEO4J_USER" <;>
        cases e2 "NEO4J_PASSWORD" <;> rfl
    rw [f1, f2]
  · have hA2 : ∃ k2, e2 "OPENAI_API_KEY" = some k2 := by
      cases hA2 : e2 "OPENAI_API_KEY" with
      | none => rw [hA1, hA2] at hk1; simp at hk1
      | some x => exact ⟨x, rfl⟩
    obtain ⟨k2, hA2⟩ := hA2
    have huri : e1 "NEO4J_URI" = e2 "NEO4J_URI" :=
      hne _ (by decide) (by decide)
    rcases hU1 : e1 "NEO4J_URI" with _ | u
    · have hU2 : e2 "NEO4J_URI" = none := by rw [← huri]; exact hU1
      have f1 : GraphitiConfig.from_env e1 = Except.error
          ⟨"ValueError", "NEO4J_URI environment variable is required"⟩ := by
        unfold GraphitiConfig.from_env
        rw [hA1, hU1]
        cases e1 "NEO4J_USER" <;> cases e1 "NEO4J_PASSWORD" <;> rfl
      have f2 : GraphitiConfig.from_env e2 = Except.error
          ⟨"ValueError", "NEO4J_URI environment variable is required"⟩ := by
        unfold GraphitiConfig.from_env
        rw [hA2, hU2]
        cases e2 "NEO4J_USER" <;> cases e2 "NEO4J_PASSWORD" <;> rfl
      rw [f1, f2]
    · have hU2 : e2 "NEO4J_URI" = some u := by rw [← huri]; exact hU1
      have husr : e1 "NEO4J_USER" = e2 "NEO4J_USER" :=
        hne _ (by decide) (by decide)
      rcases hW1 : e1 "NEO4J_USER" with _ | w
      · have hW2 : e2 "NEO4J_USER" = none := by rw [← husr]; exact hW1
        have f1 : GraphitiConfig.from_env e1 = Except.error
            ⟨"ValueError", "NEO4J_USER environment variable is required"⟩ := by
          unfold GraphitiConfig.from_env
          rw [hA1, hU1, hW1]
          cases e1 "NEO4J_PASSWORD" <;> rfl
        have f2 : GraphitiConfig.from_env e2 = Except.error
            ⟨"ValueError", "NEO4J_USER environment variable is required"⟩ := by
          unfold GraphitiConfig.from_env
          rw [hA2, hU2, hW2]
          cases e2 "NEO4J_PASSWORD" <;> rfl
        rw [f1, f2]
      · have hW2 : e2 "NEO4J_USER" = some w := by rw [← husr]; exact hW1
        rcases hP1 : e1 "NEO4J_PASSWORD" with _ | p1
        · have hP2 : e2 "NEO4J_PASSWORD" = none := by
            cases hP2 : e2 "NEO4J_PASSWORD" with
            | none => rfl
            | some _ => rw [hP1, hP2] at hp1; simp at hp1
          have f1 : GraphitiConfig.from_env e1 = Except.error
              ⟨"ValueError", "NEO4J_PASSWORD environment variable is required"⟩ := by
            unfold GraphitiConfig.from_env
            rw [hA1, hU1, hW1, hP1]
          have f2 : GraphitiConfig.from_env e2 = Except.error
              ⟨"ValueError", "NEO4J_PASSWORD environment variable is required"⟩ := by
            unfold GraphitiConfig.from_env
            rw [hA2, hU2, hW2, hP2]
          rw [f1, f2]
        · have hP2 : ∃ p2, e2 "NEO4J_PASSWORD" = some p2 := by
            cases hP2 : e2 "NEO4J_PASSWORD" with
            | none => rw [hP1, hP2] at hp1; simp at hp1
            | some x => exact ⟨x, rfl⟩
          obtain ⟨p2, hP2⟩ := hP2
          have f1 : GraphitiConfig.from_env e1 = Except.ok
              { llm := { model := getOr e1 "MODEL_NAME" "gpt-4-turbo"
                       , small_model := getOr e1 "SMALL_MODEL_NAME" "gpt-4o-mini"
                       , api_key := k1
                       , temperature := getOr e1 "LLM_TEMPERATURE" "0.0" }
              , neo4j := { uri := u, user := w, password := p1 }
              , semaphore_limit := getOr e1 "SEMAPHORE_LIMIT" "10" } := by
            unfold GraphitiConfig.from_env
            rw [hA1, hU1, hW1, hP1]
          have f2 : GraphitiConfig.from_env e2 = Except.ok
              { llm := { model := getOr e2 "MODEL_NAME" "gpt-4-turbo"
                       , small_model := getOr e2 "SMALL_MODEL_NAME" "gpt-4o-mini"
                       , api_key := k2
                       , temperature := getOr e2 "LLM_TEMPERATURE" "0.0" }
              , neo4j := { uri := u, user := w, password := p2 }
              , semaphore_limit := getOr e2 "SEMAPHORE_LIMIT" "10" } := by
            unfold GraphitiConfig.from_env
            rw [hA2, hU2, hW2, hP2]
          have hiff : k1 = "" ↔ k2 = "" := by
            rw [hA1, hA2] at hk2
            simp [truthy] at hk2
            exact hk2
          have hif : (if k1 = "" then "False" else "True")
              = (if k2 = "" then "False" else "True") := by
            by_cases hc : k1 = ""
            · have hc2 : k2 = "" := hiff.mp hc
              rw [if_pos hc, if_pos hc2]
            · have hc2 : ¬ k2 = "" := fun h => hc (hiff.mpr h)
              rw [if_neg hc, if_neg hc2]
          have hm : getOr e1 "MODEL_NAME" "gpt-4-turbo"
              = getOr e2 "MODEL_NAME" "gpt-4-turbo" := by
            unfold getOr
            rw [hne "MODEL_NAME" (by decide) (by decide)]
          have hsm : getOr e1 "SMALL_MODEL_NAME" "gpt-4o-mini"
              = getOr e2 "SMALL_MODEL_NAME" "gpt-4o-mini" := by
            unfold getOr
            rw [hne "SMALL_MODEL_NAME" (by decide) (by decide)]
          have ht : getOr e1 "LLM_TEMPERATURE" "0.0"
              = getOr e2 "LLM_TEMPERATURE" "0.0" := by
            unfold getOr
            rw [hne "LLM_TEMPERATURE" (by decide) (by decide)]
          rw [f1, f2]
          cases init with
          | raises e =>
              simp only [configLoadedLog]
              rw [hif, hm, hsm, ht]
          | ok =>
              simp only [configLoadedLog]
              rw [hif, hm, hsm, ht]

/-- C4 counterexample: two environments that differ only in the value of the
secret OPENAI_API_KEY - present-but-empty versus present-and-non-empty, so
presence is unchanged - produce different startup log output, refuting the
claim as stated. -/
theorem startup_log_differs_on_empty_secret :
    envEmptyKey "OPENAI_API_KEY" = some "" ∧
    envFull "OPENAI_API_KEY" = some "sk-test" ∧
    (envEmptyKey "OPENAI_API_KEY").isSome = (envFull "OPENAI_API_KEY").isSome ∧
    envEmptyKey "NEO4J_PASSWORD" = envFull "NEO4J_PASSWORD" ∧
    logLines (startup_event envEmptyKey InitResult.ok none).trace
      ≠ logLines (startup_event envFull InitResult.ok none).trace := by
  refine ⟨rfl, rfl, rfl, rfl, ?_⟩
  decide

/-- Witness for the amended C4 at two concrete environments differing only in
the non-empty value of OPENAI_API_KEY. -/
theorem startup_log_independent_of_secret_values_witness :
    eraseSecrets envFull = eraseSecrets envOtherKey ∧
    (envFull "OPENAI_API_KEY").isSome = (envOtherKey "OPENAI_API_KEY").isSome ∧
    truthy (envFull "OPENAI_API_KEY") = truthy (envOtherKey "OPENAI_API_KEY") ∧
    (envFull "NEO4J_PASSWORD").isSome = (envOtherKey "NEO4J_PASSWORD").isSome ∧
    truthy (envFull "NEO4J_PASSWORD") = truthy (envOtherKey "NEO4J_PASSWORD") ∧
    (logLines (startup_event envFull InitResult.ok none).trace
       = logLines (startup_event envOtherKey InitResult.ok none).trace ∧
     ("  NEO4J_URI: " ++ getOr envFull "NEO4J_URI" "NOT SET")
       ∈ logLines (startup_event envFull InitResult.ok none).trace ∧
     ("  NEO4J_USER: " ++ getOr envFull "NEO4J_USER" "NOT SET")
       ∈ logLines (startup_event envFull InitResult.ok none).trace ∧
     ("  MODEL_NAME: " ++ getOr envFull "MODEL_NAME" "NOT SET")
       ∈ logLines (startup_event envFull InitResult.ok none).trace ∧
     ("  SMALL_MODEL_NAME: " ++ getOr envFull "SMALL_MODEL_NAME" "NOT SET")
       ∈ logLines (startup_event envFull InitResult.ok none).trace) := by
  have hother : eraseSecrets envFull = eraseSecrets envOtherKey := by
    funext k
    by_cases h1 : k = "OPENAI_API_KEY"
    · simp [eraseSecrets, h1]
    · by_cases h2 : k = "NEO4J_PASSWORD"
      · simp [eraseSecrets, h1, h2]
      · simp [eraseSecrets, h1, h2, envOtherKey]
  exact ⟨hother, rfl, by decide, rfl, by decide,
    startup_log_independent_of_secret_values envFull envOtherKey
      InitResult.ok none hother rfl (by decide) rfl (by decide)⟩
